import Mathlib

/-!
Shallow embedding of `src/app.py`, a Streamlit vehicle-expense tracker backed
by a Google-Sheets store. Dates are embedded as `Nat` ordinals (only their
order matters), monetary and metric floats as `ℚ`, pandas `NaN` cells as
`Option ℚ` (`none` = NaN). A pandas `DataFrame` per worksheet is embedded as a
`List` of records. Store and UI effects (Streamlit messages, the sheets
connection raising) are made explicit: whether `conn.read` / `conn.update`
raises is a boolean parameter, and "a message was shown" is a boolean result.
-/

/-- Vehicle enum: the UI selectbox offers exactly `["Carro", "Moto"]`
(`app.py` lines 52 and 101). -/
inductive Veiculo : Type
  | carro
  | moto
deriving DecidableEq

/-- Position of the vehicle name in alphabetical order ("Carro" < "Moto"),
used to embed pandas sorting on the `Veículo` string column. -/
def Veiculo.idx : Veiculo → Nat
  | .carro => 0
  | .moto => 1

/-- One row of the `Consumo` worksheet, as built in
`FuelConsumptionUI._handle_fuel_submission` (`app.py` lines 71-78):
`{Data, Veículo, Quilometragem, Litros, Preço/L, Valor Total}`. -/
structure FuelRecord : Type where
  data : Nat
  veiculo : Veiculo
  quilometragem : ℚ
  litros : ℚ
  precoL : ℚ
  valorTotal : ℚ
deriving DecidableEq

/-- One row of the `Manutenção` worksheet, as built in
`MaintenanceUI._handle_maintenance_submission` (`app.py` lines 116-121):
`{Data, Veículo, Descrição, Valor}`. -/
structure MaintenanceRecord : Type where
  data : Nat
  veiculo : Veiculo
  descricao : String
  valor : ℚ
deriving DecidableEq

/-- `DataManager.read_data` (`app.py` lines 22-30). `readOk` is whether the
underlying `conn.read` succeeds. On failure the exception is caught,
`st.error` is shown, and an empty DataFrame is returned. Result: the rows
read, paired with whether an error message was shown. -/
def read_data {α : Type} (readOk : Bool) (store : List α) : List α × Bool :=
  if readOk then (store, false) else ([], true)

/-- `DataManager.add_data` (`app.py` lines 32-41): read-all (via `read_data`,
which swallows its own errors), concatenate the one new row at the end, write
the whole table back with `conn.update`. `writeOk` is whether `conn.update`
succeeds; on failure the exception is caught and `False` is returned, on
success `True`. Result: the store contents after the call, paired with the
returned success flag. -/
def add_data {α : Type} (readOk writeOk : Bool) (store : List α) (novo : α) :
    List α × Bool :=
  let existing := (read_data readOk store).1
  if writeOk then (existing ++ [novo], true) else (store, false)

/-- Observable outcome of a submission handler: resulting store contents,
whether `add_data` was invoked at all, whether the validation warning
(`st.warning`) was shown, and whether the success path (`st.success` +
`st.rerun`) was taken. -/
structure SubmitOutcome (α : Type) : Type where
  store : List α
  appendAttempted : Bool
  warned : Bool
  succeeded : Bool
deriving DecidableEq

/-- `FuelConsumptionUI._handle_fuel_submission` (`app.py` lines 66-82):
reject with a warning when `km <= 0 or litros <= 0 or preco <= 0`, otherwise
build the record and call `add_data("Consumo", ...)`. -/
def handleFuelSubmission (readOk writeOk : Bool) (store : List FuelRecord)
    (veiculo : Veiculo) (data : Nat) (km litros preco valorTotal : ℚ) :
    SubmitOutcome FuelRecord :=
  if km ≤ 0 ∨ litros ≤ 0 ∨ preco ≤ 0 then
    ⟨store, false, true, false⟩
  else
    let novoRegistro : FuelRecord := ⟨data, veiculo, km, litros, preco, valorTotal⟩
    let res := add_data readOk writeOk store novoRegistro
    ⟨res.1, true, false, res.2⟩

/-- `FuelConsumptionUI.render` (`app.py` lines 48-62): the submitted
`valor_total` is computed as `litros * preco_litro` before the handler runs. -/
def renderFuelSubmit (readOk writeOk : Bool) (store : List FuelRecord)
    (veiculo : Veiculo) (data : Nat) (km litros preco : ℚ) :
    SubmitOutcome FuelRecord :=
  handleFuelSubmission readOk writeOk store veiculo data km litros preco (litros * preco)

/-- `MaintenanceUI._handle_maintenance_submission` (`app.py` lines 111-125):
reject with a warning when `not descricao or valor <= 0` (an empty string is
falsy in Python), otherwise build the record and call
`add_data("Manutenção", ...)`. -/
def handleMaintenanceSubmission (readOk writeOk : Bool)
    (store : List MaintenanceRecord) (veiculo : Veiculo) (descricao : String)
    (valor : ℚ) (data : Nat) : SubmitOutcome MaintenanceRecord :=
  if descricao = "" ∨ valor ≤ 0 then
    ⟨store, false, true, false⟩
  else
    let novoRegistro : MaintenanceRecord := ⟨data, veiculo, descricao, valor⟩
    let res := add_data readOk writeOk store novoRegistro
    ⟨res.1, true, false, res.2⟩

/-- Sort key of `df.sort_values(['Veículo', 'Data'])` in
`ReportsUI._processar_dados_consumo` (`app.py` line 158): lexicographic on
the vehicle name (alphabetical, via `Veiculo.idx`) then the date. -/
def fuelKeyLE (a b : FuelRecord) : Prop :=
  a.veiculo.idx < b.veiculo.idx ∨ (a.veiculo = b.veiculo ∧ a.data ≤ b.data)

instance : DecidableRel fuelKeyLE := fun a b =>
  inferInstanceAs (Decidable (_ ∨ _))

instance : IsTotal FuelRecord fuelKeyLE :=
  ⟨by
    intro a b
    unfold fuelKeyLE
    cases ha : a.veiculo <;> cases hb : b.veiculo <;>
      simp [Veiculo.idx, ha, hb] <;> omega⟩

instance : IsTrans FuelRecord fuelKeyLE :=
  ⟨by
    intro a b c hab hbc
    unfold fuelKeyLE at *
    cases ha : a.veiculo <;> cases hb : b.veiculo <;> cases hc : c.veiculo <;>
      simp_all [Veiculo.idx] <;> omega⟩

/-- `Series.unique()` of pandas: the distinct values in order of first
appearance. `seen` accumulates the values already emitted. -/
def uniqueAux {α : Type} [DecidableEq α] (seen : List α) : List α → List α
  | [] => []
  | a :: as => if a ∈ seen then uniqueAux seen as else a :: uniqueAux (a :: seen) as

/-- Distinct values of a list in order of first appearance
(`df['Veículo'].unique()`). -/
def uniqueList {α : Type} [DecidableEq α] (l : List α) : List α :=
  uniqueAux [] l

/-- One row of the processed consumption DataFrame: the original record plus
the derived `km_diff` and `consumo_km_l` columns (`none` embeds NaN). -/
structure ConsumoRow : Type where
  base : FuelRecord
  kmDiff : Option ℚ
  consumoKmL : Option ℚ
deriving DecidableEq

/-- Row built for a record `cur` whose predecessor in its vehicle group is
`prev`: `km_diff = cur.Quilometragem - prev.Quilometragem` and
`consumo_km_l = km_diff / cur.Litros` (`app.py` lines 162-163). In ℚ a
division by zero yields 0 where pandas would yield ±inf; every claim about
this stage assumes `Litros > 0`, where the two agree. -/
def mkConsumoRow (prev cur : FuelRecord) : ConsumoRow :=
  ⟨cur, some (cur.quilometragem - prev.quilometragem),
    some ((cur.quilometragem - prev.quilometragem) / cur.litros)⟩

/-- Tail of `Series.diff()` followed by the division: each record is paired
with its predecessor `prev`. -/
def addDiffAux (prev : FuelRecord) : List FuelRecord → List ConsumoRow
  | [] => []
  | cur :: rest => mkConsumoRow prev cur :: addDiffAux cur rest

/-- The `km_diff` / `consumo_km_l` columns over one vehicle group
(`app.py` lines 162-163): the first row gets NaN (`none`) from `diff()`,
and NaN propagates into `consumo_km_l`. -/
def addDiff : List FuelRecord → List ConsumoRow
  | [] => []
  | first :: rest => ⟨first, none, none⟩ :: addDiffAux first rest

/-- `df_veiculo.dropna(subset=['consumo_km_l'])` (`app.py` line 164). -/
def dropnaConsumo (df : List ConsumoRow) : List ConsumoRow :=
  df.filter (fun row => row.consumoKmL.isSome)

/-- The rows of the sorted DataFrame belonging to one vehicle:
`df[df['Veículo'] == veiculo]` after `df.sort_values(['Veículo', 'Data'])`
(`app.py` lines 158 and 161). `insertionSort` embeds the sort: it is stable,
like pandas' default used on rows that compare equal only when both key
columns tie. -/
def grupoVeiculo (l : List FuelRecord) (v : Veiculo) : List FuelRecord :=
  (List.insertionSort fuelKeyLE l).filter (fun r => r.veiculo = v)

/-- `df['Veículo'].unique()` over the sorted DataFrame (`app.py` line 160). -/
def veiculosUnicos (l : List FuelRecord) : List Veiculo :=
  uniqueList ((List.insertionSort fuelKeyLE l).map (fun r => r.veiculo))

/-- `ReportsUI._processar_dados_consumo` (`app.py` lines 156-166): sort by
(vehicle, date), then for each distinct vehicle take its rows, add the
`km_diff` and `consumo_km_l` columns, drop the NaN rows, and concatenate the
per-vehicle results. -/
def processarDadosConsumo (l : List FuelRecord) : List ConsumoRow :=
  ((veiculosUnicos l).map
    (fun v => dropnaConsumo (addDiff (grupoVeiculo l v)))).flatten

/-- Modelled from the spec wording of the efficiency contract: given one
vehicle's records already ordered by date ascending, drop the earliest and
emit, for each remaining record, distance delta = current odometer − previous
odometer and efficiency = delta / the current record's liters. Zipping the
group with its own tail pairs each record (from the second on) with its
predecessor. -/
def consumoSpec (grupo : List FuelRecord) : List ConsumoRow :=
  List.zipWith mkConsumoRow grupo grupo.tail

/-- `Series.mean()` over cells that are all non-NaN: sum divided by count.
In ℚ the mean of an empty series is 0 where pandas yields NaN; the report
only takes means of nonempty per-vehicle groups. -/
def media (l : List ℚ) : ℚ :=
  l.sum / l.length

/-- Statistics shown for one vehicle by `ReportsUI._render_fuel_statistics`
(`app.py` lines 170-181). -/
structure VehicleFuelStats : Type where
  veiculo : Veiculo
  custo : ℚ
  km : ℚ
  consumoMedio : ℚ
deriving DecidableEq

/-- Fuel figures shown by `ReportsUI._render_fuel_statistics`
(`app.py` lines 168-191). -/
structure FuelReport : Type where
  porVeiculo : List VehicleFuelStats
  custoTotal : ℚ
  kmTotal : ℚ
deriving DecidableEq

/-- Everything `ReportsUI._render_fuel_statistics` (`app.py` lines 168-191)
displays, over the processed DataFrame `df` it receives: per vehicle (in
`df['Veículo'].unique()` order) the sums of `Valor Total` and `km_diff` and
the mean of `consumo_km_l`, then the overall sums of `Valor Total` and
`km_diff`. Pandas `sum`/`mean` skip NaN cells: `Option.getD 0` and
`List.filterMap` embed that. -/
def renderFuelStatistics (df : List ConsumoRow) : FuelReport :=
  { porVeiculo :=
      (uniqueList (df.map (fun row => row.base.veiculo))).map (fun v =>
        let dfVeiculo := df.filter (fun row => row.base.veiculo = v)
        { veiculo := v
          custo := (dfVeiculo.map (fun row => row.base.valorTotal)).sum
          km := (dfVeiculo.map (fun row => row.kmDiff.getD 0)).sum
          consumoMedio := media (dfVeiculo.filterMap (fun row => row.consumoKmL)) })
    custoTotal := (df.map (fun row => row.base.valorTotal)).sum
    kmTotal := (df.map (fun row => row.kmDiff.getD 0)).sum }

/-- Order on vehicles used by `df.groupby('Veículo')`, which sorts the group
keys (alphabetically on the name). -/
def veicLE (a b : Veiculo) : Prop :=
  a.idx ≤ b.idx

instance : DecidableRel veicLE := fun a b =>
  inferInstanceAs (Decidable (_ ≤ _))

/-- `df.groupby('Veículo')['Valor'].sum()` in
`ReportsUI._render_maintenance_statistics` (`app.py` line 210): for each
distinct vehicle, in sorted key order, the sum of its `Valor` column. -/
def gastosPorVeiculo (df : List MaintenanceRecord) : List (Veiculo × ℚ) :=
  (List.insertionSort veicLE (uniqueList (df.map (fun r => r.veiculo)))).map
    (fun v => (v, ((df.filter (fun r => r.veiculo = v)).map (fun r => r.valor)).sum))

/-- `df['Valor'].sum()` (`app.py` line 211). -/
def gastoTotal (df : List MaintenanceRecord) : ℚ :=
  (df.map (fun r => r.valor)).sum

/-- Maintenance figures shown by `ReportsUI._render_maintenance_statistics`
(`app.py` lines 207-217). -/
structure MaintReport : Type where
  porVeiculo : List (Veiculo × ℚ)
  total : ℚ
deriving DecidableEq

/-- `ReportsUI.render` (`app.py` lines 142-154): read both worksheets
(failures already swallowed inside `read_data`), and render each statistics
block only when its DataFrame is nonempty; `none` embeds a skipped block. -/
def renderReports (readOkC readOkM : Bool) (storeC : List FuelRecord)
    (storeM : List MaintenanceRecord) : Option FuelReport × Option MaintReport :=
  let dadosConsumo := (read_data readOkC storeC).1
  let dadosManutencao := (read_data readOkM storeM).1
  (if dadosConsumo.isEmpty then none
   else some (renderFuelStatistics (processarDadosConsumo dadosConsumo)),
   if dadosManutencao.isEmpty then none
   else some ⟨gastosPorVeiculo dadosManutencao, gastoTotal dadosManutencao⟩)

/-- Fuel records matching the spec's two-record test vector: one vehicle,
(odometer 1000, 10 liters) then (odometer 1400, 10 liters) on a later date. -/
def exemploConsumo : List FuelRecord :=
  [⟨1, .carro, 1000, 10, 1, 10⟩, ⟨2, .carro, 1400, 10, 1, 10⟩]

/-- Two fuel records of one vehicle with nonzero total costs (10 and 20),
used to compare the reported per-vehicle cost with the sum over the
vehicle's records. -/
def exemploCusto : List FuelRecord :=
  [⟨1, .carro, 100, 10, 1, 10⟩, ⟨2, .carro, 200, 10, 2, 20⟩]

/-- Maintenance records [(Car,100),(Car,50),(Moto,30)] from the spec's
testable property. -/
def exemploManutencao : List MaintenanceRecord :=
  [⟨1, .carro, "oleo", 100⟩, ⟨2, .carro, "pneu", 50⟩, ⟨3, .moto, "vela", 30⟩]

/-- Earlier fuel record with the larger odometer reading (1000). -/
def exemploQuedaA : FuelRecord := ⟨1, .carro, 1000, 10, 1, 10⟩

/-- Later fuel record whose odometer reading (400) went backwards. -/
def exemploQuedaB : FuelRecord := ⟨2, .carro, 400, 10, 1, 10⟩

/-- A one-record store whose record satisfies total cost = liters × price. -/
def exemploInvariante : List FuelRecord := [⟨1, .carro, 100, 10, 2, 20⟩]

theorem mem_uniqueAux {α : Type} [DecidableEq α] (l : List α) :
    ∀ (seen : List α) (x : α), x ∈ uniqueAux seen l ↔ x ∈ l ∧ x ∉ seen := by
  induction l with
  | nil => intro seen x; simp [uniqueAux]
  | cons a as ih =>
    intro seen x
    by_cases ha : a ∈ seen
    · rw [uniqueAux, if_pos ha, ih]
      simp only [List.mem_cons]
      constructor
      · rintro ⟨hx, hns⟩; exact ⟨Or.inr hx, hns⟩
      · rintro ⟨rfl | hx, hns⟩
        · exact absurd ha hns
        · exact ⟨hx, hns⟩
    · rw [uniqueAux, if_neg ha]
      simp only [List.mem_cons, ih, List.mem_cons]
      constructor
      · rintro (rfl | ⟨hx, hns⟩)
        · exact ⟨Or.inl rfl, ha⟩
        · exact ⟨Or.inr hx, fun hs => hns (Or.inr hs)⟩
      · rintro ⟨rfl | hx, hns⟩
        · exact Or.inl rfl
        · by_cases hxa : x = a
          · exact Or.inl hxa
          · exact Or.inr ⟨hx, fun hs => hs.elim hxa hns⟩

theorem nodup_uniqueAux {α : Type} [DecidableEq α] (l : List α) :
    ∀ seen : List α, (uniqueAux seen l).Nodup := by
  induction l with
  | nil => intro seen; simp [uniqueAux]
  | cons a as ih =>
    intro seen
    by_cases ha : a ∈ seen
    · rw [uniqueAux, if_pos ha]; exact ih seen
    · rw [uniqueAux, if_neg ha]
      refine List.nodup_cons.2 ⟨fun hmem => ?_, ih (a :: seen)⟩
      exact ((mem_uniqueAux as (a :: seen) a).1 hmem).2 (List.mem_cons_self a seen)

theorem mem_uniqueList {α : Type} [DecidableEq α] (l : List α) (x : α) :
    x ∈ uniqueList l ↔ x ∈ l := by
  rw [uniqueList, mem_uniqueAux]
  simp

theorem nodup_uniqueList {α : Type} [DecidableEq α] (l : List α) :
    (uniqueList l).Nodup :=
  nodup_uniqueAux l []

theorem addDiffAux_eq_zipWith (as : List FuelRecord) :
    ∀ prev : FuelRecord, addDiffAux prev as = List.zipWith mkConsumoRow (prev :: as) as := by
  induction as with
  | nil => intro prev; rfl
  | cons cur rest ih => intro prev; simp [addDiffAux, List.zipWith, ih cur]

theorem dropna_addDiffAux (as : List FuelRecord) :
    ∀ prev : FuelRecord, dropnaConsumo (addDiffAux prev as) = addDiffAux prev as := by
  induction as with
  | nil => intro prev; rfl
  | cons cur rest ih =>
    intro prev
    simp [addDiffAux, dropnaConsumo, mkConsumoRow, List.filter] at *
    exact ih cur

theorem dropna_addDiff (g : List FuelRecord) :
    dropnaConsumo (addDiff g) = consumoSpec g := by
  cases g with
  | nil => rfl
  | cons first rest =>
    rw [addDiff, consumoSpec, List.tail_cons, ← addDiffAux_eq_zipWith]
    rw [dropnaConsumo, List.filter]
    simp only [Option.isSome_none, Bool.false_eq_true, if_false]
    exact dropna_addDiffAux rest first

theorem sum_map_filter_split {α κ : Type} [DecidableEq κ] (key : α → κ)
    (val : α → ℚ) (k : κ) (l : List α) :
    (l.map val).sum
      = ((l.filter (fun a => key a = k)).map val).sum
        + ((l.filter (fun a => ¬ key a = k)).map val).sum := by
  induction l with
  | nil => simp
  | cons a as ih =>
    by_cases h : key a = k <;>
      simp [List.filter_cons, h, ih] <;> ring

theorem filter_ne_then_eq {α κ : Type} [DecidableEq κ] (key : α → κ)
    {k kOut : κ} (hne : kOut ≠ k) (l : List α) :
    (l.filter (fun a => ¬ key a = k)).filter (fun a => key a = kOut)
      = l.filter (fun a => key a = kOut) := by
  rw [List.filter_filter]
  apply List.filter_congr
  intro a _
  by_cases hko : key a = kOut
  · simp [hko, hne]
  · simp [hko]

theorem sum_partition {α κ : Type} [DecidableEq κ] (key : α → κ) (val : α → ℚ) :
    ∀ ks : List κ, ks.Nodup → ∀ l : List α, (∀ a ∈ l, key a ∈ ks) →
      (ks.map (fun k => ((l.filter (fun a => key a = k)).map val).sum)).sum
        = (l.map val).sum := by
  intro ks
  induction ks with
  | nil =>
    intro _ l hcov
    have : l = [] := List.eq_nil_iff_forall_not_mem.2 fun a ha => by
      simpa using hcov a ha
    simp [this]
  | cons k ks ih =>
    intro hnd l hcov
    have hk_not := (List.nodup_cons.1 hnd).1
    have hnd' := (List.nodup_cons.1 hnd).2
    rw [List.map_cons, List.sum_cons]
    have hmap : ks.map (fun kOut => ((l.filter (fun a => key a = kOut)).map val).sum)
        = ks.map (fun kOut =>
            (((l.filter (fun a => ¬ key a = k)).filter (fun a => key a = kOut)).map val).sum) := by
      apply List.map_congr_left
      intro kOut hkOut
      rw [filter_ne_then_eq key (fun h => hk_not (by rw [← h]; exact hkOut)) l]
    rw [hmap, ih hnd' (l.filter (fun a => ¬ key a = k)) ?_]
    · rw [sum_map_filter_split key val k l]
    · intro a ha
      have hmem := List.mem_filter.1 ha
      have hcv := hcov a hmem.1
      rcases List.mem_cons.1 hcv with h | h
      · exact absurd h (by simpa using hmem.2)
      · exact h

theorem pairwise_dataLE_of_const_veiculo (v : Veiculo) :
    ∀ g : List FuelRecord, (∀ a ∈ g, a.veiculo = v) → g.Pairwise fuelKeyLE →
      g.Pairwise (fun a b => a.data ≤ b.data) := by
  intro g
  induction g with
  | nil => intro _ _; exact List.Pairwise.nil
  | cons a as ih =>
    intro hv hp
    rcases List.pairwise_cons.1 hp with ⟨ha, hrest⟩
    refine List.pairwise_cons.2 ⟨fun b hb => ?_, ih (fun x hx => hv x (List.mem_cons_of_mem _ hx)) hrest⟩
    rcases ha b hb with hlt | ⟨_, hle⟩
    · exfalso
      rw [hv a (List.mem_cons_self a as), hv b (List.mem_cons_of_mem _ hb)] at hlt
      exact lt_irrefl _ hlt
    · exact hle

/-- C3: a submission that fails its validation gate — a fuel record with
odometer ≤ 0 or liters ≤ 0 or price ≤ 0, or a maintenance record with empty
description or cost ≤ 0 — shows a user-visible warning, creates no record,
attempts no append, and leaves the store unchanged. -/
theorem submission_validation_gate (readOk writeOk : Bool)
    (storeF : List FuelRecord) (storeM : List MaintenanceRecord)
    (veiculo : Veiculo) (data : Nat) (km litros preco valorTotal valor : ℚ)
    (descricao : String) :
    ((km ≤ 0 ∨ litros ≤ 0 ∨ preco ≤ 0) →
      handleFuelSubmission readOk writeOk storeF veiculo data km litros preco valorTotal
        = ⟨storeF, false, true, false⟩)
  ∧ ((descricao = "" ∨ valor ≤ 0) →
      handleMaintenanceSubmission readOk writeOk storeM veiculo descricao valor data
        = ⟨storeM, false, true, false⟩) := by
  constructor
  · intro h; rw [handleFuelSubmission, if_pos h]
  · intro h; rw [handleMaintenanceSubmission, if_pos h]

/-- Witness for C3: a fuel submission with odometer 0 and a maintenance
submission with an empty description are both rejected with only a warning. -/
theorem submission_validation_gate_witness :
    ((0:ℚ) ≤ 0 ∨ (5:ℚ) ≤ 0 ∨ (5:ℚ) ≤ 0)
  ∧ handleFuelSubmission true true [] Veiculo.carro 1 0 5 5 25
      = ⟨[], false, true, false⟩
  ∧ ("" = "" ∨ (0:ℚ) ≤ 0)
  ∧ handleMaintenanceSubmission true true [] Veiculo.carro "" 0 1
      = ⟨[], false, true, false⟩ :=
  ⟨Or.inl le_rfl,
   (submission_validation_gate true true [] [] Veiculo.carro 1 0 5 5 25 0 "").1
     (Or.inl le_rfl),
   Or.inl rfl,
   (submission_validation_gate true true [] [] Veiculo.carro 1 0 5 5 25 0 "").2
     (Or.inl rfl)⟩

/-- C4: with all reads succeeding, appending records one at a time yields the
initial rows followed by the new rows in insertion order; each successful
append maps store contents `s` and record `r` to `s ++ [r]`. -/
theorem add_data_sequential_append {α : Type} (init rows : List α) :
    List.foldl (fun s r => (add_data true true s r).1) init rows = init ++ rows
  ∧ ∀ (s : List α) (r : α), add_data true true s r = (s ++ [r], true) := by
  constructor
  · induction rows generalizing init with
    | nil => simp
    | cons r rs ih =>
      rw [List.foldl_cons]
      have hstep : (add_data true true init r).1 = init ++ [r] := rfl
      rw [hstep, ih (init ++ [r])]
      simp
  · intro s r; rfl

/-- C5: when the underlying read raises during `add_data`, `read_data`
swallows the error and returns an empty table, so `add_data` writes a table
containing only the new record — discarding all previously stored rows — and
still returns success. -/
theorem add_data_read_failure_overwrites {α : Type} (store : List α) (novo : α) :
    read_data false store = ([], true)
  ∧ add_data false true store novo = ([novo], true) :=
  ⟨rfl, rfl⟩

/-- C6: on the empty record set every aggregation returns a zero or empty
result: the efficiency processor, the fuel statistics block, the maintenance
group-by and total, the mean, and the whole reports page. -/
theorem empty_dataset_aggregations :
    processarDadosConsumo [] = []
  ∧ renderFuelStatistics [] = ⟨[], 0, 0⟩
  ∧ gastosPorVeiculo [] = []
  ∧ gastoTotal [] = 0
  ∧ media [] = 0
  ∧ renderReports true true [] [] = (none, none) := by
  refine ⟨rfl, rfl, rfl, rfl, ?_, rfl⟩
  simp [media]

/-- C8: a failing store read is caught, surfaced as a user-visible message,
treated as an empty dataset, and the reports page still renders (showing
nothing) rather than propagating a fatal error. -/
theorem read_failure_graceful {α : Type} (store : List α)
    (storeC : List FuelRecord) (storeM : List MaintenanceRecord) :
    (read_data false store).1 = []
  ∧ (read_data false store).2 = true
  ∧ renderReports false false storeC storeM = (none, none) :=
  ⟨rfl, rfl, rfl⟩

/-- C9: the submitted total cost is computed as liters × price-per-liter, so
if every record in the store satisfies total cost = liters × price, every
record in the store after a fuel submission still does — whatever the
validation outcome and whether the read or write succeeds or fails. -/
theorem valor_total_invariant (readOk writeOk : Bool) (store : List FuelRecord)
    (veiculo : Veiculo) (data : Nat) (km litros preco : ℚ)
    (h : ∀ r ∈ store, r.valorTotal = r.litros * r.precoL) :
    ∀ r ∈ (renderFuelSubmit readOk writeOk store veiculo data km litros preco).store,
      r.valorTotal = r.litros * r.precoL := by
  intro r hr
  by_cases hval : km ≤ 0 ∨ litros ≤ 0 ∨ preco ≤ 0
  · simp [renderFuelSubmit, handleFuelSubmission, hval] at hr
    exact h r hr
  · cases readOk <;> cases writeOk <;>
      simp [renderFuelSubmit, handleFuelSubmission, hval, add_data, read_data] at hr
    · exact h r hr
    · subst hr; rfl
    · exact h r hr
    · rcases hr with hr | hr
      · exact h r hr
      · subst hr; rfl

/-- Witness for C9: starting from a store whose one record satisfies
total cost = liters × price, a valid fuel submission leaves every stored
record satisfying it. -/
theorem valor_total_invariant_witness :
    (∀ r ∈ exemploInvariante, r.valorTotal = r.litros * r.precoL)
  ∧ ∀ r ∈ (renderFuelSubmit true true exemploInvariante Veiculo.carro 2 200 10 3).store,
      r.valorTotal = r.litros * r.precoL := by
  have hstore : ∀ r ∈ exemploInvariante, r.valorTotal = r.litros * r.precoL := by
    intro r hr
    simp [exemploInvariante] at hr
    subst hr
    norm_num
  exact ⟨hstore,
    valor_total_invariant true true exemploInvariante Veiculo.carro 2 200 10 3 hstore⟩

/-- C7: each entry of the per-vehicle maintenance group-by is the sum of that
vehicle's costs, the overall total is the sum over all records (equal to the
sum of the per-vehicle entries), and the spec's concrete instance
[(Car,100),(Car,50),(Moto,30)] yields Car=150, Moto=30, overall=180. -/
theorem maintenance_totals_correct (df : List MaintenanceRecord) :
    (∀ p ∈ gastosPorVeiculo df,
        p.2 = ((df.filter (fun r => r.veiculo = p.1)).map (fun r => r.valor)).sum)
  ∧ gastoTotal df = ((gastosPorVeiculo df).map (fun p => p.2)).sum
  ∧ gastosPorVeiculo exemploManutencao = [(Veiculo.carro, 150), (Veiculo.moto, 30)]
  ∧ gastoTotal exemploManutencao = 180 := by
  refine ⟨?_, ?_, ?_, ?_⟩
  · intro p hp
    rcases List.mem_map.1 hp with ⟨v, hv, rfl⟩
    rfl
  · have hperm : (List.insertionSort veicLE
          (uniqueList (df.map (fun r => r.veiculo)))).Perm
        (uniqueList (df.map (fun r => r.veiculo))) :=
      List.perm_insertionSort _ _
    have hnd : (List.insertionSort veicLE
        (uniqueList (df.map (fun r => r.veiculo)))).Nodup :=
      hperm.nodup_iff.2 (nodup_uniqueList _)
    have hcov : ∀ a ∈ df, a.veiculo
        ∈ List.insertionSort veicLE (uniqueList (df.map (fun r => r.veiculo))) := by
      intro a ha
      rw [List.mem_insertionSort]
      exact (mem_uniqueList _ _).2 (List.mem_map_of_mem _ ha)
    have hpart := sum_partition (fun r : MaintenanceRecord => r.veiculo)
      (fun r => r.valor) _ hnd df hcov
    rw [gastosPorVeiculo, List.map_map, gastoTotal, ← hpart]
    rfl
  · norm_num +decide [gastosPorVeiculo, exemploManutencao, uniqueList, uniqueAux,
      List.insertionSort, List.orderedInsert, veicLE, Veiculo.idx]
  · norm_num [gastoTotal, exemploManutencao]

theorem render_fuel_statistics_fields (df : List ConsumoRow) :
    (∀ s ∈ (renderFuelStatistics df).porVeiculo,
        s.custo = ((df.filter (fun row => row.base.veiculo = s.veiculo)).map
            (fun row => row.base.valorTotal)).sum
      ∧ s.km = ((df.filter (fun row => row.base.veiculo = s.veiculo)).map
            (fun row => row.kmDiff.getD 0)).sum
      ∧ s.consumoMedio = media ((df.filter
            (fun row => row.base.veiculo = s.veiculo)).filterMap
            (fun row => row.consumoKmL)))
  ∧ (renderFuelStatistics df).custoTotal
      = ((renderFuelStatistics df).porVeiculo.map (fun s => s.custo)).sum
  ∧ (renderFuelStatistics df).kmTotal
      = ((renderFuelStatistics df).porVeiculo.map (fun s => s.km)).sum := by
  refine ⟨?_, ?_, ?_⟩
  · intro s hs
    rcases List.mem_map.1 hs with ⟨v, hv, rfl⟩
    exact ⟨rfl, rfl, rfl⟩
  · have hnd := nodup_uniqueList (df.map (fun row => row.base.veiculo))
    have hcov : ∀ row ∈ df, row.base.veiculo
        ∈ uniqueList (df.map (fun row => row.base.veiculo)) :=
      fun row hrow => (mem_uniqueList _ _).2 (List.mem_map_of_mem _ hrow)
    have hpart := sum_partition (fun row : ConsumoRow => row.base.veiculo)
      (fun row => row.base.valorTotal) _ hnd df hcov
    simp only [renderFuelStatistics, List.map_map]
    exact hpart.symm
  · have hnd := nodup_uniqueList (df.map (fun row => row.base.veiculo))
    have hcov : ∀ row ∈ df, row.base.veiculo
        ∈ uniqueList (df.map (fun row => row.base.veiculo)) :=
      fun row hrow => (mem_uniqueList _ _).2 (List.mem_map_of_mem _ hrow)
    have hpart := sum_partition (fun row : ConsumoRow => row.base.veiculo)
      (fun row => row.kmDiff.getD 0) _ hnd df hcov
    simp only [renderFuelStatistics, List.map_map]
    exact hpart.symm

/-- C2 counterexample: on two records of one vehicle with total costs 10 and
20 (and positive liters), the reported per-vehicle fuel cost is 20 — the sum
over the efficiency-processed rows — not 30, the sum of the total-cost field
of that vehicle's fuel records, so the claimed equality fails. -/
theorem fuel_cost_counterexample :
    ¬ ∀ s ∈ (renderFuelStatistics (processarDadosConsumo exemploCusto)).porVeiculo,
        s.custo = ((exemploCusto.filter (fun r => r.veiculo = s.veiculo)).map
          (fun r => r.valorTotal)).sum := by
  intro hall
  have hpor : (renderFuelStatistics (processarDadosConsumo exemploCusto)).porVeiculo
      = [⟨Veiculo.carro, 20, 100, 10⟩] := by
    norm_num +decide [renderFuelStatistics, processarDadosConsumo, veiculosUnicos,
      uniqueList, uniqueAux, grupoVeiculo, List.insertionSort, List.orderedInsert,
      fuelKeyLE, addDiff, addDiffAux, mkConsumoRow, dropnaConsumo, media,
      exemploCusto, Veiculo.idx, List.filterMap_cons, List.filterMap_nil]
  have h20 := hall ⟨Veiculo.carro, 20, 100, 10⟩
    (by rw [hpor]; exact List.mem_singleton_self _)
  norm_num +decide [exemploCusto] at h20

/-- C2 amended: for fuel records with positive liters, every reported
per-vehicle statistic is computed over that vehicle's rows of the
efficiency-processed set (which excludes the earliest record per vehicle):
cost is the sum of their total-cost fields, kilometers the sum of their
distance deltas, mean efficiency the mean of their efficiency values; the
reported overall totals equal the sums of the per-vehicle figures. -/
theorem render_fuel_statistics_amended (l : List FuelRecord)
    (h : ∀ r ∈ l, 0 < r.litros) :
    (∀ s ∈ (renderFuelStatistics (processarDadosConsumo l)).porVeiculo,
        s.custo = (((processarDadosConsumo l).filter
            (fun row => row.base.veiculo = s.veiculo)).map
            (fun row => row.base.valorTotal)).sum
      ∧ s.km = (((processarDadosConsumo l).filter
            (fun row => row.base.veiculo = s.veiculo)).map
            (fun row => row.kmDiff.getD 0)).sum
      ∧ s.consumoMedio = media (((processarDadosConsumo l).filter
            (fun row => row.base.veiculo = s.veiculo)).filterMap
            (fun row => row.consumoKmL)))
  ∧ (renderFuelStatistics (processarDadosConsumo l)).custoTotal
      = ((renderFuelStatistics (processarDadosConsumo l)).porVeiculo.map
          (fun s => s.custo)).sum
  ∧ (renderFuelStatistics (processarDadosConsumo l)).kmTotal
      = ((renderFuelStatistics (processarDadosConsumo l)).porVeiculo.map
          (fun s => s.km)).sum :=
  render_fuel_statistics_fields (processarDadosConsumo l)

/-- Witness for C2's amended claim at the two-record example. -/
theorem render_fuel_statistics_amended_witness :
    (∀ r ∈ exemploCusto, 0 < r.litros)
  ∧ ((∀ s ∈ (renderFuelStatistics (processarDadosConsumo exemploCusto)).porVeiculo,
        s.custo = (((processarDadosConsumo exemploCusto).filter
            (fun row => row.base.veiculo = s.veiculo)).map
            (fun row => row.base.valorTotal)).sum
      ∧ s.km = (((processarDadosConsumo exemploCusto).filter
            (fun row => row.base.veiculo = s.veiculo)).map
            (fun row => row.kmDiff.getD 0)).sum
      ∧ s.consumoMedio = media (((processarDadosConsumo exemploCusto).filter
            (fun row => row.base.veiculo = s.veiculo)).filterMap
            (fun row => row.consumoKmL)))
  ∧ (renderFuelStatistics (processarDadosConsumo exemploCusto)).custoTotal
      = ((renderFuelStatistics (processarDadosConsumo exemploCusto)).porVeiculo.map
          (fun s => s.custo)).sum
  ∧ (renderFuelStatistics (processarDadosConsumo exemploCusto)).kmTotal
      = ((renderFuelStatistics (processarDadosConsumo exemploCusto)).porVeiculo.map
          (fun s => s.km)).sum) :=
  ⟨by decide, render_fuel_statistics_amended exemploCusto (by decide)⟩

/-- C1: for fuel records with positive liters, the efficiency processor
equals, per distinct vehicle, the spec-side computation `consumoSpec` on that
vehicle's group — which drops exactly the first (earliest) row and gives
every remaining row distance delta = current − previous odometer and
efficiency = delta / current liters; moreover each group is exactly that
vehicle's records (a permutation of the filter) ordered by date ascending,
the distinct-vehicle list covers exactly the vehicles present, and each
vehicle contributes its record count minus one rows (zero for a vehicle with
a single record). -/
theorem processar_dados_consumo_correct (l : List FuelRecord)
    (h : ∀ r ∈ l, 0 < r.litros) :
    processarDadosConsumo l
        = ((veiculosUnicos l).map (fun v => consumoSpec (grupoVeiculo l v))).flatten
  ∧ (∀ v : Veiculo, (grupoVeiculo l v).Perm (l.filter (fun r => r.veiculo = v)))
  ∧ (∀ v : Veiculo, (grupoVeiculo l v).Pairwise (fun r s => r.data ≤ s.data))
  ∧ (∀ v : Veiculo, v ∈ veiculosUnicos l ↔ ∃ r ∈ l, r.veiculo = v)
  ∧ (∀ v : Veiculo, (consumoSpec (grupoVeiculo l v)).length
        = (grupoVeiculo l v).length - 1) := by
  refine ⟨?_, ?_, ?_, ?_, ?_⟩
  · show ((veiculosUnicos l).map
        (fun v => dropnaConsumo (addDiff (grupoVeiculo l v)))).flatten = _
    congr 1
    apply List.map_congr_left
    intro v _
    exact dropna_addDiff _
  · intro v
    exact (List.perm_insertionSort fuelKeyLE l).filter _
  · intro v
    have hs : (List.insertionSort fuelKeyLE l).Sorted fuelKeyLE :=
      List.sorted_insertionSort fuelKeyLE l
    have hp : (grupoVeiculo l v).Pairwise fuelKeyLE := hs.filter _
    refine pairwise_dataLE_of_const_veiculo v _ ?_ hp
    intro a ha
    exact of_decide_eq_true (List.mem_filter.1 ha).2
  · intro v
    rw [veiculosUnicos, mem_uniqueList]
    constructor
    · intro hv
      rcases List.mem_map.1 hv with ⟨r, hr, rfl⟩
      rw [List.mem_insertionSort] at hr
      exact ⟨r, hr, rfl⟩
    · rintro ⟨r, hr, rfl⟩
      exact List.mem_map.2 ⟨r, by rw [List.mem_insertionSort]; exact hr, rfl⟩
  · intro v
    rw [consumoSpec, List.length_zipWith, List.length_tail]
    omega

/-- Witness for C1 at the spec's two-record test vector (both with
10 liters). -/
theorem processar_dados_consumo_correct_witness :
    (∀ r ∈ exemploConsumo, 0 < r.litros)
  ∧ (processarDadosConsumo exemploConsumo
        = ((veiculosUnicos exemploConsumo).map
            (fun v => consumoSpec (grupoVeiculo exemploConsumo v))).flatten
  ∧ (∀ v : Veiculo, (grupoVeiculo exemploConsumo v).Perm
        (exemploConsumo.filter (fun r => r.veiculo = v)))
  ∧ (∀ v : Veiculo,
        (grupoVeiculo exemploConsumo v).Pairwise (fun r s => r.data ≤ s.data))
  ∧ (∀ v : Veiculo, v ∈ veiculosUnicos exemploConsumo
        ↔ ∃ r ∈ exemploConsumo, r.veiculo = v)
  ∧ (∀ v : Veiculo, (consumoSpec (grupoVeiculo exemploConsumo v)).length
        = (grupoVeiculo exemploConsumo v).length - 1)) :=
  ⟨by decide, processar_dados_consumo_correct exemploConsumo (by decide)⟩

/-- C10: for two same-vehicle fuel records ordered by date whose later
odometer reading is strictly smaller and whose later liters are positive,
the processor outputs exactly one row, for the later record, whose
efficiency value (delta / liters) is strictly negative — the row is not
dropped or validated away. -/
theorem negative_efficiency_not_dropped (a b : FuelRecord)
    (hv : a.veiculo = b.veiculo) (hd : a.data < b.data)
    (hkm : b.quilometragem < a.quilometragem) (hl : 0 < b.litros) :
    processarDadosConsumo [a, b]
      = [⟨b, some (b.quilometragem - a.quilometragem),
           some ((b.quilometragem - a.quilometragem) / b.litros)⟩]
  ∧ (b.quilometragem - a.quilometragem) / b.litros < 0 := by
  constructor
  · have hkey : fuelKeyLE a b := Or.inr ⟨hv, Nat.le_of_lt hd⟩
    have hsort : List.insertionSort fuelKeyLE [a, b] = [a, b] := by
      simp [List.insertionSort, List.orderedInsert, hkey]
    have huniq : veiculosUnicos [a, b] = [a.veiculo] := by
      rw [veiculosUnicos, hsort]
      simp [uniqueList, uniqueAux, ← hv]
    have hgrupo : grupoVeiculo [a, b] a.veiculo = [a, b] := by
      rw [grupoVeiculo, hsort]
      simp [List.filter, ← hv]
    calc processarDadosConsumo [a, b]
        = ((veiculosUnicos [a, b]).map
            (fun v => dropnaConsumo (addDiff (grupoVeiculo [a, b] v)))).flatten := rfl
      _ = [dropnaConsumo (addDiff (grupoVeiculo [a, b] a.veiculo))].flatten := by
            rw [huniq, List.map_singleton]
      _ = [mkConsumoRow a b] := by rw [hgrupo, dropna_addDiff]; rfl
      _ = [⟨b, some (b.quilometragem - a.quilometragem),
             some ((b.quilometragem - a.quilometragem) / b.litros)⟩] := rfl
  · exact div_neg_of_neg_of_pos (sub_neg.2 hkm) hl

/-- Witness for C10: odometer 1000 then 400 on a later date, 10 liters. -/
theorem negative_efficiency_not_dropped_witness :
    exemploQuedaA.veiculo = exemploQuedaB.veiculo
  ∧ exemploQuedaA.data < exemploQuedaB.data
  ∧ exemploQuedaB.quilometragem < exemploQuedaA.quilometragem
  ∧ 0 < exemploQuedaB.litros
  ∧ (processarDadosConsumo [exemploQuedaA, exemploQuedaB]
      = [⟨exemploQuedaB,
           some (exemploQuedaB.quilometragem - exemploQuedaA.quilometragem),
           some ((exemploQuedaB.quilometragem - exemploQuedaA.quilometragem)
             / exemploQuedaB.litros)⟩]
  ∧ (exemploQuedaB.quilometragem - exemploQuedaA.quilometragem)
      / exemploQuedaB.litros < 0) :=
  ⟨rfl, by decide, by decide, by decide,
   negative_efficiency_not_dropped exemploQuedaA exemploQuedaB rfl
     (by decide) (by decide) (by decide)⟩
